import Mathlib

/-!
# Verification of the cluster-centric behavior analysis pipeline

Shallow embedding of the core of the `cbac-implementation-v3` repository:

* `src/src/services/calculation_engine.py`  (scoring engine)
* `src/src/services/clustering_engine.py`   (clustering engine)
* `src/src/services/cluster_analysis_pipeline.py` (cluster assembly pipeline)
* `src/src/services/archetype_service.py`   (label generation; the LLM
  collaborator itself is external and is modelled as a parameter)

Python floats are modelled as real numbers, Unix timestamps as integers.
Functions that can raise are modelled in the `Except PyErr` monad; a Python
function with no reachable `raise` (and no fallible primitive) is modelled as
a plain function.
-/

namespace CBAC

/-- Python exception kinds that the embedded code can raise. -/
inductive PyErr where
  | valueError
  | keyError
  | indexError
deriving DecidableEq, Repr

/-- `TierEnum` from `src/models/schemas.py`. -/
inductive TierEnum where
  | PRIMARY
  | SECONDARY
  | NOISE
deriving DecidableEq, Repr

/-! ## Configuration constants (`src/config.py`, class `Settings`) -/

/-- `Settings.alpha` (credibility exponent), default 0.35. -/
def alpha : ℝ := 0.35

/-- `Settings.beta` (clarity exponent), default 0.40. -/
def beta : ℝ := 0.40

/-- `Settings.gamma` (extraction-confidence exponent), default 0.25. -/
def gamma : ℝ := 0.25

/-- `Settings.reinforcement_multiplier`, default 0.01. -/
def reinforcement_multiplier : ℝ := 0.01

/-- `Settings.min_cluster_size`, default 2. -/
def min_cluster_size : ℕ := 2

/-- `Settings.cluster_selection_epsilon`, default 0.15 (passed to HDBSCAN). -/
def cluster_selection_epsilon : ℝ := 0.15

/-! ## Data model (`src/models/schemas.py`)

The pydantic models are embedded as plain structures; pydantic's runtime type
validation is not modelled.  `BehaviorObservation` keeps exactly the fields the
analysed code paths read. -/

/-- `BehaviorObservation` from `src/models/schemas.py` (the fields used by the
cluster-centric pipeline). -/
structure BehaviorObservation where
  observation_id : String
  behavior_text : String
  credibility : ℝ
  clarity_score : ℝ
  extraction_confidence : ℝ
  timestamp : ℤ
  prompt_id : String
  decay_rate : ℝ

/-! ## Scoring engine (`src/services/calculation_engine.py`) -/

/-- `CalculationEngine.calculate_behavior_weight`:
`BW = credibility^α · clarity_score^β · extraction_confidence^γ`
(real powers, `math.pow`). -/
noncomputable def calculate_behavior_weight
    (credibility clarity_score extraction_confidence : ℝ) : ℝ :=
  credibility ^ alpha * clarity_score ^ beta * extraction_confidence ^ gamma

/-- `CalculationEngine.calculate_adjusted_behavior_weight`:
`ABW = BW · (1 + reinforcement_count · r) · e^(−decay_rate · days_since_last_seen)`. -/
noncomputable def calculate_adjusted_behavior_weight
    (behavior_weight : ℝ) (reinforcement_count : ℕ)
    (decay_rate days_since_last_seen : ℝ) : ℝ :=
  behavior_weight * (1 + (reinforcement_count : ℝ) * reinforcement_multiplier) *
    Real.exp (-decay_rate * days_since_last_seen)

/-- `CalculationEngine.calculate_behavior_metrics` specialised to a
`BehaviorObservation` (a point observation): it has a single `timestamp` and no
`last_seen`/`created_at`/`reinforcement_count` attributes, so `days_active = 0`
and `reinforcement_count = 1`.  This is the ABW value the pipeline stores per
observation in step 1 of `analyze_observations`. -/
noncomputable def observation_abw
    (credibility clarity_score extraction_confidence decay_rate : ℝ) : ℝ :=
  calculate_adjusted_behavior_weight
    (calculate_behavior_weight credibility clarity_score extraction_confidence)
    1 decay_rate 0

/-- Rounding to 4 decimal places, Python's `round(x, 4)`.
(For a real number not exactly halfway between two multiples of `10⁻⁴` —
the only case exercised here — Python's round-half-to-even agrees with
`⌊x·10⁴ + 1/2⌋ / 10⁴`.) -/
noncomputable def round4 (x : ℝ) : ℝ :=
  ((⌊x * 10000 + 1 / 2⌋ : ℤ) : ℝ) / 10000

/-- `CalculationEngine._calculate_recency_factor`: mean over the timestamps of
`e^(−0.01·(current−ts)/86400)`; `0.0` for an empty timestamp list. -/
noncomputable def calculate_recency_factor
    (timestamps : List ℤ) (current_timestamp : ℤ) : ℝ :=
  if timestamps = [] then 0
  else
    let weights := timestamps.map fun ts =>
      Real.exp (-(0.01) * (((current_timestamp - ts : ℤ) : ℝ) / 86400))
    weights.sum / (timestamps.length : ℝ)

/-- The pre-rounding value of `CalculationEngine.calculate_cluster_strength`:
`raw = ln(cluster_size + 1) · mean_abw · recency_factor`, normalized by
`raw / (1 + raw)`. -/
noncomputable def normalized_strength
    (cluster_size : ℕ) (mean_abw : ℝ) (timestamps : List ℤ)
    (current_timestamp : ℤ) : ℝ :=
  let size_factor := Real.log ((cluster_size : ℝ) + 1)
  let recency_factor := calculate_recency_factor timestamps current_timestamp
  let raw_strength := size_factor * mean_abw * recency_factor
  raw_strength / (1 + raw_strength)

/-- `CalculationEngine.calculate_cluster_strength`: the normalized strength
rounded to 4 decimal places.  The function has no raise path. -/
noncomputable def calculate_cluster_strength
    (cluster_size : ℕ) (mean_abw : ℝ) (timestamps : List ℤ)
    (current_timestamp : ℤ) : ℝ :=
  round4 (normalized_strength cluster_size mean_abw timestamps current_timestamp)

/-- `calculate_cluster_strength` with the recency factor abstracted out
(the function of `n`, `m`, `ρ` described in the spec's strength formula). -/
noncomputable def strength_with_recency (cluster_size : ℕ) (mean_abw ρ : ℝ) : ℝ :=
  let raw_strength := Real.log ((cluster_size : ℝ) + 1) * mean_abw * ρ
  round4 (raw_strength / (1 + raw_strength))

/-- Mean intra-cluster distance inside `calculate_cluster_confidence`:
`sum(d)/len(d) if d else 0`. -/
noncomputable def mean_intra_distance (intra_cluster_distances : List ℝ) : ℝ :=
  if intra_cluster_distances = [] then 0
  else intra_cluster_distances.sum / (intra_cluster_distances.length : ℝ)

/-- Consistency score: `1 / (1 + mean_distance)`. -/
noncomputable def consistency_score (intra_cluster_distances : List ℝ) : ℝ :=
  1 / (1 + mean_intra_distance intra_cluster_distances)

/-- Reinforcement score: `min(1, log10(cluster_size + 1))`. -/
noncomputable def reinforcement_score (cluster_size : ℕ) : ℝ :=
  min 1 (Real.logb 10 ((cluster_size : ℝ) + 1))

/-- The confidence value before the clarity-trend boost and the cap:
`consistency_score × reinforcement_score` (line
`confidence = consistency_score * reinforcement_score`). -/
noncomputable def pre_boost_confidence
    (intra_cluster_distances : List ℝ) (cluster_size : ℕ) : ℝ :=
  consistency_score intra_cluster_distances * reinforcement_score cluster_size

/-- Python's `sorted` on `(timestamp, clarity)` pairs: stable sort by
lexicographic tuple comparison. -/
noncomputable def sort_time_clarity (pairs : List (ℤ × ℝ)) : List (ℤ × ℝ) :=
  pairs.mergeSort fun p q =>
    decide (p.1 < q.1) || (decide (p.1 = q.1) && decide (p.2 ≤ q.2))

/-- The clarity-trend block of `calculate_cluster_confidence` (lines 470-482):
pairs the timestamps with the clarity scores (`zip` truncates to the shorter
list), sorts, and compares the second-half mean clarity with the first-half
mean.  `sorted_clarity[0]` raises `IndexError` when the zipped list is empty
although `len(timestamps) >= 2`. -/
noncomputable def clarity_trend_calc
    (timestamps : List ℤ) (clarity_scores : List ℝ) : Except PyErr ℝ :=
  if 2 ≤ timestamps.length then
    let sorted_clarity :=
      (sort_time_clarity (timestamps.zip clarity_scores)).map Prod.snd
    match sorted_clarity with
    | [] => .error .indexError
    | c0 :: rest =>
      let sc := c0 :: rest
      let mid := sc.length / 2
      let first_half_avg :=
        if 0 < mid then (sc.take mid).sum / (mid : ℝ) else c0
      let second_half_avg :=
        (sc.drop mid).sum / ((sc.length : ℝ) - (mid : ℝ))
      .ok (second_half_avg - first_half_avg)
  else .ok 0

/-- The record returned by `calculate_cluster_confidence`
(keys `confidence`, `consistency_score`, `reinforcement_score`,
`clarity_trend`, all rounded to 4 decimals). -/
structure ConfidenceMetrics where
  confidence : ℝ
  consistency_score : ℝ
  reinforcement_score : ℝ
  clarity_trend : ℝ

/-- `CalculationEngine.calculate_cluster_confidence`: multiplicative model,
`confidence = consistency × reinforcement`, boosted by `1 + 0.1·trend` when the
clarity trend is positive, capped at 1. -/
noncomputable def calculate_cluster_confidence
    (intra_cluster_distances : List ℝ) (cluster_size : ℕ)
    (clarity_scores : List ℝ) (timestamps : List ℤ) :
    Except PyErr ConfidenceMetrics := do
  let consistency := consistency_score intra_cluster_distances
  let reinforcement := reinforcement_score cluster_size
  let clarity_trend ← clarity_trend_calc timestamps clarity_scores
  let confidence := pre_boost_confidence intra_cluster_distances cluster_size
  let confidence :=
    if 0 < clarity_trend then confidence * (1 + clarity_trend * 0.1)
    else confidence
  let confidence := min 1 confidence
  .ok {
    confidence := round4 confidence
    consistency_score := round4 consistency
    reinforcement_score := round4 reinforcement
    clarity_trend := round4 clarity_trend }

/-! ## Label selection
(`calculation_engine.select_canonical_label` and
`archetype_service.generate_concise_label`)

The text-generation collaborator is external: it is modelled as an
`Option String` — `none` when the call raises (collaborator unavailable),
`some s` when it returns the stripped completion text `s`. -/

/-- Python's `len(s.split())`: number of whitespace-separated words. -/
def word_count (s : String) : ℕ :=
  ((s.splitOn " ").filter fun w => w ≠ "").length

/-- The distinct elements of a list.  Python's `list(set(xs))` enumerates each
distinct element once in an unspecified (hash-dependent) order; this embedding
determinizes it to first-occurrence order. -/
def first_dedup {α : Type} [DecidableEq α] : List α → List α
  | [] => []
  | x :: xs => x :: (first_dedup xs).filter fun y => y ≠ x

/-- Python's `max(texts, key=len)`: the first element of maximal length;
`none` for the empty list (where `max` raises). -/
def max_by_len (texts : List String) : Option String :=
  match texts with
  | [] => none
  | t :: ts =>
    some (ts.foldl (fun acc s => if acc.length < s.length then s else acc) t)

/-- `ArchetypeService.generate_concise_label`: one observation's text is
returned as is; otherwise the member texts are deduplicated, capped at 10, and
the collaborator is asked for a concise label; an unavailable collaborator
(`llm = none`) or an empty/over-long (more than 8 words) response falls back to
the longest deduplicated text. -/
def generate_concise_label (behavior_texts : List String)
    (llm : Option String) : String :=
  match behavior_texts with
  | [] => "Unknown Behavior"
  | [t] => t
  | _ =>
    let unique_texts := (first_dedup behavior_texts).take 10
    let fallback := (max_by_len unique_texts).getD "Unknown Behavior"
    match llm with
    | none => fallback
    | some label =>
      if label = "" ∨ 8 < word_count label then fallback else label

/-- `CalculationEngine.select_canonical_label`: raises `ValueError` on an empty
cluster; returns the single member's text verbatim (no collaborator call);
otherwise uses `generate_concise_label`, or — when `use_llm` is false — the
longest member text. -/
def select_canonical_label (observations : List BehaviorObservation)
    (use_llm : Bool) (llm : Option String) : Except PyErr String :=
  match observations with
  | [] => .error .valueError
  | [o] => .ok o.behavior_text
  | o :: o2 :: rest =>
    let behavior_texts := (o :: o2 :: rest).map fun b => b.behavior_text
    if use_llm then .ok (generate_concise_label behavior_texts llm)
    else
      match max_by_len behavior_texts with
      | some t => .ok t
      | none => .error .valueError

/-! ## Clustering engine (`src/services/clustering_engine.py`)

The HDBSCAN algorithm itself comes from the external `hdbscan` library
(`from hdbscan import HDBSCAN`); it is not code of this repository.  Its
`fit_predict` is therefore a parameter `hdbscan_fit_predict` of the embedding,
and the property the spec attributes to it is captured by `HdbscanSpec`
below. -/

/-- L2 normalization of one embedding row (lines 66-67 of
`clustering_engine.py`): `X / (norm(X) + 1e-10)`. -/
noncomputable def l2_normalize (v : List ℝ) : List ℝ :=
  let norm := Real.sqrt (v.map fun x => x ^ 2).sum
  v.map fun x => x / (norm + 1e-10)

/-- The cluster identifier string `f"cluster_{label}"`. -/
def cluster_key (label : ℤ) : String := s!"cluster_{label}"

/-- The `clusters` dict built by the loop at lines 85-92 of
`clustering_engine.py`: keys in first-occurrence order of the non-noise
labels, each key mapping to the ids carrying that label, in input order. -/
def make_clusters (pairs : List (String × ℤ)) : List (String × List String) :=
  (first_dedup ((pairs.map Prod.snd).filter fun l => l ≠ -1)).map fun l =>
    (cluster_key l, (pairs.filter fun p => p.2 = l).map Prod.fst)

/-- The `noise_behaviors` list built by the same loop: the ids labelled -1,
in input order. -/
def make_noise (pairs : List (String × ℤ)) : List String :=
  (pairs.filter fun p => p.2 = -1).map Prod.fst

/-- The dict returned by `ClusteringEngine.cluster_behaviors`.  A Python dict
can hold or lack any key: the three keys that `cluster_analysis_pipeline.py`
reads but the engine never writes (`cluster_centroids`,
`intra_cluster_distances`, `cluster_embeddings`) are `Option` fields, `none`
meaning the key is absent.  `intra_cluster_distances` maps a cluster id to the
value under the inner `"all_distances"` key. -/
structure ClusteringResult where
  clusters : List (String × List String)
  labels : List ℤ
  noise_behaviors : List String
  num_clusters : ℕ
  cluster_centroids : Option (List (String × List ℝ)) := none
  intra_cluster_distances : Option (List (String × List ℝ)) := none
  cluster_embeddings : Option (List (String × List (List ℝ))) := none

/-- `ClusteringEngine.cluster_behaviors`: checks the lengths agree, returns the
all-noise degenerate result when there are fewer points than
`min_cluster_size`, otherwise runs HDBSCAN on the L2-normalized embeddings and
groups the ids by label. -/
noncomputable def cluster_behaviors
    (hdbscan_fit_predict : List (List ℝ) → List ℤ)
    (embeddings : List (List ℝ)) (behavior_ids : List String) :
    Except PyErr ClusteringResult :=
  if embeddings.length ≠ behavior_ids.length then .error .valueError
  else if embeddings.length < min_cluster_size then
    .ok { clusters := []
          labels := List.replicate behavior_ids.length (-1)
          noise_behaviors := behavior_ids
          num_clusters := 0 }
  else
    let X_normalized := embeddings.map l2_normalize
    let cluster_labels := hdbscan_fit_predict X_normalized
    let pairs := behavior_ids.zip cluster_labels
    .ok { clusters := make_clusters pairs
          labels := cluster_labels
          noise_behaviors := make_noise pairs
          num_clusters := (make_clusters pairs).length }

/-- Modelled from the spec: the external HDBSCAN library's `fit_predict`
(missing from this repository — only its caller `cluster_behaviors` is under
`src/`).  Per §4.2 of the spec it yields one label per input point, a label of
-1 meaning noise, and every non-noise label class has at least
`min_cluster_size` members. -/
def HdbscanSpec (fit : List (List ℝ) → List ℤ) : Prop :=
  ∀ X : List (List ℝ),
    (fit X).length = X.length ∧
    ∀ l ∈ fit X, l ≠ -1 → min_cluster_size ≤ ((fit X).filter fun x => x = l).length

/-! ## Cluster assembly pipeline (`src/services/cluster_analysis_pipeline.py`) -/

/-- `BehaviorCluster` from `src/models/schemas.py` (fields populated by
`_build_behavior_clusters`). -/
structure BehaviorCluster where
  cluster_id : String
  user_id : String
  observation_ids : List String
  observations : List BehaviorObservation
  centroid_embedding : Option (List ℝ)
  cluster_size : ℕ
  canonical_label : String
  cluster_name : String
  cluster_strength : ℝ
  confidence : ℝ
  all_prompt_ids : List String
  all_timestamps : List ℤ
  wording_variations : List String
  first_seen : ℤ
  last_seen : ℤ
  days_active : ℝ
  tier : TierEnum
  created_at : ℤ
  updated_at : ℤ
  consistency_score : ℝ
  reinforcement_score : ℝ
  clarity_trend : ℝ
  mean_abw : ℝ
  recency_factor : ℝ

/-- Python dict subscription `d[k]` on a string-keyed dict: the value when the
key is present, `KeyError` otherwise. -/
def dict_get {α : Type} (m : List (String × α)) (k : String) : Except PyErr α :=
  match m.find? fun p => p.1 = k with
  | some p => .ok p.2
  | none => .error PyErr.keyError

/-- Python dict subscription for a key that the producer may not have written
(`Option` field): the value when present, `KeyError` otherwise. -/
def key_get {α : Type} (v : Option α) : Except PyErr α :=
  match v with
  | some c => .ok c
  | none => .error PyErr.keyError

/-- The lookup `obs_map[oid]` where `obs_map = {obs.observation_id: obs}`:
for duplicate ids the last assignment wins. -/
def obs_lookup (observations : List BehaviorObservation) (oid : String) :
    Option BehaviorObservation :=
  (observations.filter fun o => o.observation_id = oid).getLast?

/-- Python's `min` on a nonempty integer list (raises `ValueError` on `[]`). -/
def list_min : List ℤ → Except PyErr ℤ
  | [] => .error .valueError
  | t :: ts => .ok (ts.foldl min t)

/-- Python's `max` on a nonempty integer list (raises `ValueError` on `[]`). -/
def list_max : List ℤ → Except PyErr ℤ
  | [] => .error .valueError
  | t :: ts => .ok (ts.foldl max t)

/-- The per-cluster body of the loop in `_build_behavior_clusters`
(lines 304-398): aggregates the member observations' evidence, computes
strength and confidence, selects the label, and assembles the
`BehaviorCluster`.  `gen_name` abstracts `archetype_service.generate_cluster_name`
(external text generation with internal fallback, never raising). -/
noncomputable def build_one_cluster
    (intra : List (String × List ℝ)) (centroids : List (String × List ℝ))
    (observations : List BehaviorObservation) (user_id : String)
    (current_timestamp : ℤ) (label_llm : Option String)
    (gen_name : List String → ℕ → String → String)
    (cluster_id : String) (observation_ids : List String) :
    Except PyErr (Option BehaviorCluster) := do
  let cluster_observations := observation_ids.filterMap (obs_lookup observations)
  if cluster_observations.isEmpty then
    .ok none
  else do
    let all_prompt_ids := cluster_observations.map fun o => o.prompt_id
    let all_timestamps := cluster_observations.map fun o => o.timestamp
    let wording_variations := cluster_observations.map fun o => o.behavior_text
    let clarity_scores := cluster_observations.map fun o => o.clarity_score
    let abw_values := cluster_observations.map fun o =>
      observation_abw o.credibility o.clarity_score o.extraction_confidence o.decay_rate
    let cluster_size := cluster_observations.length
    let mean_abw :=
      if abw_values = [] then 0 else abw_values.sum / (abw_values.length : ℝ)
    let cluster_strength :=
      calculate_cluster_strength cluster_size mean_abw all_timestamps current_timestamp
    -- `intra_cluster_distances[cluster_id]["all_distances"]`: KeyError when absent
    let distances ← dict_get intra cluster_id
    let confidence_metrics ←
      calculate_cluster_confidence distances cluster_size clarity_scores all_timestamps
    let canonical_label ← select_canonical_label cluster_observations true label_llm
    let first_seen ← list_min all_timestamps
    let last_seen ← list_max all_timestamps
    let days_active := ((last_seen - first_seen : ℤ) : ℝ) / 86400
    let cluster_name := gen_name wording_variations cluster_size "UNKNOWN"
    let centroid := (centroids.find? fun p => p.1 = cluster_id).map fun p => p.2
    .ok (some {
      cluster_id := cluster_id
      user_id := user_id
      observation_ids := observation_ids
      observations := cluster_observations
      centroid_embedding := centroid
      cluster_size := cluster_size
      canonical_label := canonical_label
      cluster_name := cluster_name
      cluster_strength := cluster_strength
      confidence := confidence_metrics.confidence
      all_prompt_ids := all_prompt_ids
      all_timestamps := all_timestamps
      wording_variations := wording_variations
      first_seen := first_seen
      last_seen := last_seen
      days_active := days_active
      tier := TierEnum.NOISE
      created_at := current_timestamp
      updated_at := current_timestamp
      consistency_score := confidence_metrics.consistency_score
      reinforcement_score := confidence_metrics.reinforcement_score
      clarity_trend := confidence_metrics.clarity_trend
      mean_abw := mean_abw
      recency_factor := calculate_recency_factor all_timestamps current_timestamp })

/-- The `for cluster_id, observation_ids in clusters.items()` loop of
`_build_behavior_clusters`, in dict order. -/
noncomputable def build_loop
    (intra : List (String × List ℝ)) (centroids : List (String × List ℝ))
    (observations : List BehaviorObservation) (user_id : String)
    (current_timestamp : ℤ) (label_llm : Option String)
    (gen_name : List String → ℕ → String → String) :
    List (String × List String) → Except PyErr (List BehaviorCluster)
  | [] => .ok []
  | (cluster_id, observation_ids) :: rest => do
    let head ← build_one_cluster intra centroids observations user_id
      current_timestamp label_llm gen_name cluster_id observation_ids
    let tail ← build_loop intra centroids observations user_id
      current_timestamp label_llm gen_name rest
    match head with
    | none => .ok tail
    | some bc => .ok (bc :: tail)

/-- `ClusterAnalysisPipeline._build_behavior_clusters`: reads the
`cluster_centroids`, `intra_cluster_distances` and `cluster_embeddings` keys of
the clustering result (raising `KeyError` when a key is absent), then builds
one `BehaviorCluster` per retained cluster. -/
noncomputable def build_behavior_clusters
    (clustering_result : ClusteringResult)
    (observations : List BehaviorObservation) (user_id : String)
    (current_timestamp : ℤ) (label_llm : Option String)
    (gen_name : List String → ℕ → String → String) :
    Except PyErr (List BehaviorCluster) := do
  let clusters := clustering_result.clusters
  let cluster_centroids ← key_get clustering_result.cluster_centroids
  let intra_cluster_distances ← key_get clustering_result.intra_cluster_distances
  let _cluster_embeddings ← key_get clustering_result.cluster_embeddings
  build_loop intra_cluster_distances cluster_centroids observations user_id
    current_timestamp label_llm gen_name clusters

/-- `ClusterAnalysisPipeline._assign_tier_by_strength`:
`strength ≥ 0.8 → PRIMARY`, `0.4 ≤ strength < 0.8 → SECONDARY`, else
`NOISE`. -/
noncomputable def assign_tier_by_strength (cluster_strength : ℝ) : TierEnum :=
  if 0.8 ≤ cluster_strength then TierEnum.PRIMARY
  else if 0.4 ≤ cluster_strength then TierEnum.SECONDARY
  else TierEnum.NOISE

/-- `ClusterAnalysisPipeline._calculate_time_span` on the prompts' timestamps:
`(max − min)/86400`, `0.0` for no prompts. -/
noncomputable def calculate_time_span (prompt_timestamps : List ℤ) : ℝ :=
  match prompt_timestamps with
  | [] => 0
  | t :: ts => ((ts.foldl max t - ts.foldl min t : ℤ) : ℝ) / 86400

/-- `ProfileStatistics` from `src/models/schemas.py`. -/
structure ProfileStatistics where
  total_behaviors_analyzed : ℕ
  clusters_formed : ℕ
  total_prompts_analyzed : ℕ
  analysis_time_span_days : ℝ

/-- `CoreBehaviorProfile` from `src/models/schemas.py` (the cluster-centric
fields; the deprecated `primary_behaviors`/`secondary_behaviors` lists are
always empty and omitted). -/
structure CoreBehaviorProfile where
  user_id : String
  generated_at : ℤ
  behavior_clusters : List BehaviorCluster
  archetype : Option String
  statistics : ProfileStatistics

/-- The computational core of `ClusterAnalysisPipeline.analyze_observations`:
embed (collaborator parameter `embed`), cluster, build the behavior clusters,
assign tiers from `cluster_strength`, generate the archetype (collaborator
parameter `gen_arch`, applied to the non-NOISE canonical labels), and assemble
the profile with its run statistics.  Database storage (steps 6 and 10) is
external I/O and not modelled. -/
noncomputable def analyze_observations_core
    (embed : List String → List (List ℝ))
    (hdbscan_fit_predict : List (List ℝ) → List ℤ)
    (label_llm : Option String)
    (gen_name : List String → ℕ → String → String)
    (gen_arch : List String → String)
    (user_id : String)
    (observations : List BehaviorObservation)
    (prompt_timestamps : List ℤ)
    (generate_archetype : Bool)
    (current_timestamp : ℤ) : Except PyErr CoreBehaviorProfile := do
  let embeddings := embed (observations.map fun o => o.behavior_text)
  let observation_ids := observations.map fun o => o.observation_id
  let clustering_result ← cluster_behaviors hdbscan_fit_predict embeddings observation_ids
  let built ← build_behavior_clusters clustering_result observations user_id
    current_timestamp label_llm gen_name
  let behavior_clusters := built.map fun c =>
    { c with tier := assign_tier_by_strength c.cluster_strength }
  let canonical_labels :=
    (behavior_clusters.filter fun c => c.tier ≠ TierEnum.NOISE).map fun c =>
      c.canonical_label
  let archetype :=
    if generate_archetype && !behavior_clusters.isEmpty && !canonical_labels.isEmpty then
      some (gen_arch canonical_labels)
    else none
  let statistics : ProfileStatistics :=
    { total_behaviors_analyzed := observations.length
      clusters_formed := behavior_clusters.length
      total_prompts_analyzed := prompt_timestamps.length
      analysis_time_span_days := calculate_time_span prompt_timestamps }
  .ok { user_id := user_id
        generated_at := current_timestamp
        behavior_clusters := behavior_clusters
        archetype := archetype
        statistics := statistics }

/-! ## Concrete instances used in the evaluations -/

/-- A stand-in HDBSCAN `fit_predict` used for concrete runs: two points form
one cluster (label 0); any other number of points is labelled all noise.  It
satisfies `HdbscanSpec`. -/
def fit_two : List (List ℝ) → List ℤ := fun X =>
  if X.length = 2 then [0, 0] else List.replicate X.length (-1)

/-- The clustering result of `cluster_behaviors fit_two [[1],[1]] ["a","b"]`
(note: no `cluster_centroids`/`intra_cluster_distances`/`cluster_embeddings`
keys). -/
def result_two : ClusteringResult :=
  { clusters := [(cluster_key 0, ["a", "b"])]
    labels := [0, 0]
    noise_behaviors := []
    num_clusters := 1 }

/-- The degenerate clustering result for the single input point `"a"`. -/
def result_single : ClusteringResult :=
  { clusters := [], labels := [-1], noise_behaviors := ["a"], num_clusters := 0 }

/-- A concrete observation with id and text `s`. -/
def obs_of (s : String) : BehaviorObservation :=
  { observation_id := s, behavior_text := s, credibility := 0.9
    clarity_score := 0.9, extraction_confidence := 0.9, timestamp := 0
    prompt_id := "p", decay_rate := 0.01 }

/-- Embedding collaborator stub: every text maps to the vector `[1]`. -/
def embed_one : List String → List (List ℝ) := fun texts => texts.map fun _ => [1]

/-- Cluster-name generation collaborator stub. -/
def gen_name_stub : List String → ℕ → String → String := fun _ _ _ => "name"

/-- Archetype generation collaborator stub. -/
def gen_arch_stub : List String → String := fun _ => "archetype"

/-! ## General lemmas about the embedded primitives -/

lemma round4_le (x : ℝ) : round4 x ≤ x + 1 / 20000 := by
  have h := Int.floor_le (x * 10000 + 1 / 2)
  unfold round4
  linarith

lemma le_round4 (x : ℝ) : x - 1 / 20000 ≤ round4 x := by
  have h := Int.lt_floor_add_one (x * 10000 + 1 / 2)
  unfold round4
  linarith

lemma round4_mono {x y : ℝ} (h : x ≤ y) : round4 x ≤ round4 y := by
  have hf : ⌊x * 10000 + 1 / 2⌋ ≤ ⌊y * 10000 + 1 / 2⌋ :=
    Int.floor_mono (by linarith)
  have hf' : ((⌊x * 10000 + 1 / 2⌋ : ℤ) : ℝ) ≤ ((⌊y * 10000 + 1 / 2⌋ : ℤ) : ℝ) :=
    Int.cast_le.mpr hf
  unfold round4
  linarith

lemma round4_nonneg {x : ℝ} (h : 0 ≤ x) : 0 ≤ round4 x := by
  have hf : (0 : ℤ) ≤ ⌊x * 10000 + 1 / 2⌋ := Int.le_floor.mpr (by push_cast; linarith)
  have hf' : (0 : ℝ) ≤ ((⌊x * 10000 + 1 / 2⌋ : ℤ) : ℝ) := by exact_mod_cast hf
  unfold round4
  positivity

lemma round4_le_one {x : ℝ} (h : x ≤ 1) : round4 x ≤ 1 := by
  have hf : ⌊x * 10000 + 1 / 2⌋ ≤ 10000 := by
    have h1 : (⌊x * 10000 + 1 / 2⌋ : ℝ) ≤ x * 10000 + 1 / 2 := Int.floor_le _
    have h2 : ⌊x * 10000 + 1 / 2⌋ < 10001 := by
      have : (⌊x * 10000 + 1 / 2⌋ : ℝ) < 10001 := by linarith
      exact_mod_cast this
    omega
  have hf' : ((⌊x * 10000 + 1 / 2⌋ : ℤ) : ℝ) ≤ 10000 := by exact_mod_cast hf
  unfold round4
  linarith

/-- Evaluation of `round4` when the scaled argument is pinned between two
integers. -/
lemma round4_eq_of_bounds {x : ℝ} (k : ℤ)
    (h1 : (k : ℝ) ≤ x * 10000 + 1 / 2) (h2 : x * 10000 + 1 / 2 < (k : ℝ) + 1) :
    round4 x = (k : ℝ) / 10000 := by
  unfold round4
  rw [Int.floor_eq_iff.mpr ⟨h1, h2⟩]

lemma recency_nil (T : ℤ) : calculate_recency_factor [] T = 0 := by
  simp [calculate_recency_factor]

lemma recency_nonneg (ts : List ℤ) (T : ℤ) : 0 ≤ calculate_recency_factor ts T := by
  unfold calculate_recency_factor
  split
  · exact le_refl 0
  · apply div_nonneg
    · apply List.sum_nonneg
      intro x hx
      simp only [List.mem_map] at hx
      obtain ⟨t, _, rfl⟩ := hx
      exact (Real.exp_pos _).le
    · positivity

/-- When no timestamp is in the future of the reference time, every decay
weight is at most 1, so the recency factor is at most 1. -/
lemma recency_le_one {ts : List ℤ} {T : ℤ} (h : ∀ t ∈ ts, t ≤ T) :
    calculate_recency_factor ts T ≤ 1 := by
  unfold calculate_recency_factor
  split
  · norm_num
  · rename_i hne
    have hlen : 0 < (ts.length : ℝ) := by
      have : ts ≠ [] := hne
      have : 0 < ts.length := List.length_pos.mpr this
      exact_mod_cast this
    rw [div_le_one hlen]
    have hb : ∀ x ∈ ts.map (fun t =>
        Real.exp (-(0.01) * (((T - t : ℤ) : ℝ) / 86400))), x ≤ 1 := by
      intro x hx
      simp only [List.mem_map] at hx
      obtain ⟨t, ht, rfl⟩ := hx
      have hd : (0 : ℝ) ≤ ((T - t : ℤ) : ℝ) := by
        have ht' := h t ht
        have : (0 : ℤ) ≤ T - t := by omega
        exact_mod_cast this
      calc Real.exp (-(0.01) * (((T - t : ℤ) : ℝ) / 86400))
          ≤ Real.exp 0 := Real.exp_le_exp.mpr (by nlinarith)
        _ = 1 := Real.exp_zero
    calc (ts.map (fun t => Real.exp (-(0.01) * (((T - t : ℤ) : ℝ) / 86400)))).sum
        ≤ (ts.map (fun t => Real.exp (-(0.01) * (((T - t : ℤ) : ℝ) / 86400)))).length • (1 : ℝ) :=
          List.sum_le_card_nsmul _ _ hb
      _ = (ts.length : ℝ) := by simp [nsmul_eq_mul]

/-- When every timestamp is within `lo` of the reference time (and not in its
future), every decay weight is at least `exp (-(0.01) * (lo / 86400))`. -/
lemma recency_ge {ts : List ℤ} {T : ℤ} {lo : ℝ}
    (hne : ts ≠ []) (h : ∀ t ∈ ts, 0 ≤ T - t ∧ ((T - t : ℤ) : ℝ) ≤ lo) :
    Real.exp (-(0.01) * (lo / 86400)) ≤ calculate_recency_factor ts T := by
  unfold calculate_recency_factor
  rw [if_neg hne]
  have hlen : 0 < (ts.length : ℝ) := by
    have : 0 < ts.length := List.length_pos.mpr hne
    exact_mod_cast this
  rw [le_div_iff₀ hlen]
  have hb : ∀ x ∈ ts.map (fun t =>
      Real.exp (-(0.01) * (((T - t : ℤ) : ℝ) / 86400))),
      Real.exp (-(0.01) * (lo / 86400)) ≤ x := by
    intro x hx
    simp only [List.mem_map] at hx
    obtain ⟨t, ht, rfl⟩ := hx
    apply Real.exp_le_exp.mpr
    have := (h t ht).2
    nlinarith
  calc Real.exp (-(0.01) * (lo / 86400)) * (ts.length : ℝ)
      = (ts.map (fun t => Real.exp (-(0.01) * (((T - t : ℤ) : ℝ) / 86400)))).length •
          Real.exp (-(0.01) * (lo / 86400)) := by
        simp [nsmul_eq_mul, mul_comm]
    _ ≤ (ts.map (fun t => Real.exp (-(0.01) * (((T - t : ℤ) : ℝ) / 86400)))).sum :=
        List.card_nsmul_le_sum _ _ hb

lemma div_one_add_nonneg {r : ℝ} (h : 0 ≤ r) : 0 ≤ r / (1 + r) :=
  div_nonneg h (by linarith)

lemma div_one_add_lt_one {r : ℝ} (h : 0 ≤ r) : r / (1 + r) < 1 := by
  rw [div_lt_one (by linarith)]
  linarith

lemma div_one_add_mono {x y : ℝ} (hx : 0 ≤ x) (hxy : x ≤ y) :
    x / (1 + x) ≤ y / (1 + y) := by
  rw [div_le_div_iff₀ (by linarith) (by linarith)]
  nlinarith

/-- With three equal exponents summing to 1, the behavior weight of equal
quality scores is the score itself. -/
lemma behavior_weight_of_equal {c : ℝ} (hc : 0 < c) :
    calculate_behavior_weight c c c = c := by
  unfold calculate_behavior_weight alpha beta gamma
  rw [← Real.rpow_add hc, ← Real.rpow_add hc]
  norm_num

/-- A point observation's ABW: `BW · 1.01` (zero self-interval). -/
lemma observation_abw_of_equal {c : ℝ} (hc : 0 < c) (d : ℝ) :
    observation_abw c c c d = c * 1.01 := by
  unfold observation_abw calculate_adjusted_behavior_weight reinforcement_multiplier
  rw [behavior_weight_of_equal hc]
  norm_num

lemma normalized_strength_nonneg (n : ℕ) {m : ℝ} (hm : 0 ≤ m)
    (ts : List ℤ) (T : ℤ) : 0 ≤ normalized_strength n m ts T := by
  unfold normalized_strength
  apply div_one_add_nonneg
  have h1 : 0 ≤ Real.log ((n : ℝ) + 1) := Real.log_nonneg (by
    have : (0 : ℝ) ≤ (n : ℝ) := by positivity
    linarith)
  have h2 := recency_nonneg ts T
  positivity

lemma normalized_strength_lt_one (n : ℕ) {m : ℝ} (hm : 0 ≤ m)
    (ts : List ℤ) (T : ℤ) : normalized_strength n m ts T < 1 := by
  unfold normalized_strength
  apply div_one_add_lt_one
  have h1 : 0 ≤ Real.log ((n : ℝ) + 1) := Real.log_nonneg (by
    have : (0 : ℝ) ≤ (n : ℝ) := by positivity
    linarith)
  have h2 := recency_nonneg ts T
  positivity

/-- Scenario A numerics: three observations of quality 0.9/0.9/0.9, all
timestamps within one day of the reference time, give a cluster strength in
`[0.55, 0.56]` — tier SECONDARY, not PRIMARY. -/
lemma strength_scenarioA {ts : List ℤ} {T : ℤ} (hne : ts ≠ [])
    (h : ∀ t ∈ ts, 0 ≤ T - t ∧ T - t ≤ 86400) :
    let a := observation_abw 0.9 0.9 0.9 0.01
    let s := calculate_cluster_strength 3 ([a, a, a].sum / 3) ts T
    0.55 ≤ s ∧ s ≤ 0.56 := by
  intro a s
  have ha : a = 0.9 * 1.01 := observation_abw_of_equal (by norm_num) 0.01
  have hm : [a, a, a].sum / 3 = 0.909 := by
    simp only [List.sum_cons, List.sum_nil, ha]
    norm_num
  have hlog4 : Real.log ((3 : ℕ) + 1) = 2 * Real.log 2 := by
    have : ((3 : ℕ) : ℝ) + 1 = 2 ^ (2 : ℕ) := by norm_num
    rw [this, Real.log_pow]
    norm_num
  have hlog2_lo := Real.log_two_gt_d9
  have hlog2_hi := Real.log_two_lt_d9
  -- recency factor bounds
  have hρ_hi : calculate_recency_factor ts T ≤ 1 :=
    recency_le_one (fun t ht => by have := (h t ht).1; omega)
  have hρ_lo : (0.99 : ℝ) ≤ calculate_recency_factor ts T := by
    have h1 : Real.exp (-(0.01) * ((86400 : ℝ) / 86400)) ≤ calculate_recency_factor ts T := by
      apply recency_ge hne
      intro t ht
      refine ⟨(h t ht).1, ?_⟩
      have := (h t ht).2
      exact_mod_cast this
    have h2 : (0.99 : ℝ) ≤ Real.exp (-(0.01) * ((86400 : ℝ) / 86400)) := by
      have h3 := Real.add_one_le_exp (-(0.01) : ℝ)
      have h4 : (-(0.01) : ℝ) * ((86400 : ℝ) / 86400) = -(0.01) := by norm_num
      rw [h4]
      linarith
    linarith
  have hρ_nonneg := recency_nonneg ts T
  -- raw strength bounds
  set ρ := calculate_recency_factor ts T with hρ
  have hraw_lo : (1.247 : ℝ) ≤ 2 * Real.log 2 * 0.909 * ρ := by nlinarith
  have hraw_hi : 2 * Real.log 2 * 0.909 * ρ ≤ (1.2603 : ℝ) := by nlinarith
  have hx_lo : (0.5549 : ℝ) ≤ normalized_strength 3 ([a, a, a].sum / 3) ts T := by
    unfold normalized_strength
    simp only [hm, hlog4, ← hρ]
    calc (0.5549 : ℝ) ≤ 1.247 / (1 + 1.247) := by norm_num
      _ ≤ (2 * Real.log 2 * 0.909 * ρ) / (1 + 2 * Real.log 2 * 0.909 * ρ) :=
          div_one_add_mono (by norm_num) hraw_lo
  have hx_hi : normalized_strength 3 ([a, a, a].sum / 3) ts T ≤ (0.5576 : ℝ) := by
    unfold normalized_strength
    simp only [hm, hlog4, ← hρ]
    calc (2 * Real.log 2 * 0.909 * ρ) / (1 + 2 * Real.log 2 * 0.909 * ρ)
        ≤ 1.2603 / (1 + 1.2603) := div_one_add_mono (by nlinarith) hraw_hi
      _ ≤ (0.5576 : ℝ) := by norm_num
  constructor
  · have := le_round4 (normalized_strength 3 ([a, a, a].sum / 3) ts T)
    show (0.55 : ℝ) ≤ round4 (normalized_strength 3 ([a, a, a].sum / 3) ts T)
    linarith
  · have := round4_le (normalized_strength 3 ([a, a, a].sum / 3) ts T)
    show round4 (normalized_strength 3 ([a, a, a].sum / 3) ts T) ≤ (0.56 : ℝ)
    linarith

lemma assign_tier_primary {s : ℝ} (h : 0.8 ≤ s) :
    assign_tier_by_strength s = TierEnum.PRIMARY := by
  unfold assign_tier_by_strength
  rw [if_pos h]

lemma assign_tier_secondary {s : ℝ} (h1 : 0.4 ≤ s) (h2 : s < 0.8) :
    assign_tier_by_strength s = TierEnum.SECONDARY := by
  unfold assign_tier_by_strength
  rw [if_neg (by linarith), if_pos h1]

/-! ## Claim C1 -/

/-- C1 (counterexample): in Scenario A — cluster of 3 observations with
credibility, clarity and extraction-confidence all 0.9, every timestamp within
one day of the reference time (here: all equal to it) — the computed cluster
strength is strictly below 0.8 and the assigned tier is SECONDARY, not
PRIMARY, contradicting the claim that strength ≥ 0.8 and tier = PRIMARY. -/
theorem spec_C1_counterexample :
    calculate_cluster_strength 3
      ([observation_abw 0.9 0.9 0.9 0.01, observation_abw 0.9 0.9 0.9 0.01,
        observation_abw 0.9 0.9 0.9 0.01].sum / 3) [0, 0, 0] 0 < 0.8 ∧
    assign_tier_by_strength (calculate_cluster_strength 3
      ([observation_abw 0.9 0.9 0.9 0.01, observation_abw 0.9 0.9 0.9 0.01,
        observation_abw 0.9 0.9 0.9 0.01].sum / 3) [0, 0, 0] 0) ≠
      TierEnum.PRIMARY := by
  have h := @strength_scenarioA [0, 0, 0] 0 (by simp)
    (by intro t ht; simp at ht; omega)
  obtain ⟨h1, h2⟩ := h
  refine ⟨by linarith, ?_⟩
  rw [assign_tier_secondary (by linarith) (by linarith)]
  simp

/-- C1 (amended): for 3 observations with credibility 0.9, clarity 0.9 and
extraction-confidence 0.9 and all timestamps within 1 day of the reference
time, the cluster of size 3 has strength in [0.4, 0.8) (numerically ≈ 0.55)
and is assigned tier SECONDARY by the rule strength ≥ 0.8 → PRIMARY,
0.4 ≤ strength < 0.8 → SECONDARY. -/
theorem spec_C1_amended (T : ℤ) (ts : List ℤ) (hlen : ts.length = 3)
    (hts : ∀ t ∈ ts, 0 ≤ T - t ∧ T - t ≤ 86400) :
    0.4 ≤ calculate_cluster_strength 3
      ([observation_abw 0.9 0.9 0.9 0.01, observation_abw 0.9 0.9 0.9 0.01,
        observation_abw 0.9 0.9 0.9 0.01].sum / 3) ts T ∧
    calculate_cluster_strength 3
      ([observation_abw 0.9 0.9 0.9 0.01, observation_abw 0.9 0.9 0.9 0.01,
        observation_abw 0.9 0.9 0.9 0.01].sum / 3) ts T < 0.8 ∧
    assign_tier_by_strength (calculate_cluster_strength 3
      ([observation_abw 0.9 0.9 0.9 0.01, observation_abw 0.9 0.9 0.9 0.01,
        observation_abw 0.9 0.9 0.9 0.01].sum / 3) ts T) =
      TierEnum.SECONDARY := by
  have hne : ts ≠ [] := by
    intro hnil
    rw [hnil] at hlen
    simp at hlen
  obtain ⟨h1, h2⟩ := strength_scenarioA hne hts
  exact ⟨by linarith, by linarith,
    assign_tier_secondary (by linarith) (by linarith)⟩

/-- Witness for C1 (amended), at reference time 0 with all three timestamps 0. -/
theorem spec_C1_witness :
    ([(0 : ℤ), 0, 0].length = 3) ∧
    (∀ t ∈ [(0 : ℤ), 0, 0], 0 ≤ (0 : ℤ) - t ∧ (0 : ℤ) - t ≤ 86400) ∧
    (0.4 ≤ calculate_cluster_strength 3
      ([observation_abw 0.9 0.9 0.9 0.01, observation_abw 0.9 0.9 0.9 0.01,
        observation_abw 0.9 0.9 0.9 0.01].sum / 3) [0, 0, 0] 0 ∧
     calculate_cluster_strength 3
      ([observation_abw 0.9 0.9 0.9 0.01, observation_abw 0.9 0.9 0.9 0.01,
        observation_abw 0.9 0.9 0.9 0.01].sum / 3) [0, 0, 0] 0 < 0.8 ∧
     assign_tier_by_strength (calculate_cluster_strength 3
      ([observation_abw 0.9 0.9 0.9 0.01, observation_abw 0.9 0.9 0.9 0.01,
        observation_abw 0.9 0.9 0.9 0.01].sum / 3) [0, 0, 0] 0) =
      TierEnum.SECONDARY) :=
  ⟨rfl, by intro t ht; simp at ht; omega,
    spec_C1_amended 0 [0, 0, 0] rfl (by intro t ht; simp at ht; omega)⟩

lemma round4_zero : round4 0 = 0 := by
  have h := round4_eq_of_bounds (x := 0) 0 (by norm_num) (by norm_num)
  simpa using h

lemma round4_one : round4 1 = 1 := by
  have h := round4_eq_of_bounds (x := 1) 10000 (by norm_num) (by norm_num)
  rw [h]
  norm_num

/-- With no timestamps the recency factor is 0, so the cluster strength is
(silently) 0 for any cluster size and mean ABW. -/
lemma strength_empty_timestamps (n : ℕ) (m : ℝ) (T : ℤ) :
    calculate_cluster_strength n m [] T = 0 := by
  unfold calculate_cluster_strength normalized_strength
  rw [recency_nil]
  simp [round4_zero]

/-- `calculate_cluster_confidence` on an empty distance list and an empty
timestamp list returns a result (no exception): consistency defaults to 1 and
the trend to 0. -/
lemma confidence_empty_eval (n : ℕ) (cs : List ℝ) :
    calculate_cluster_confidence [] n cs [] =
      .ok ⟨round4 (min 1 (reinforcement_score n)), round4 1,
           round4 (reinforcement_score n), round4 0⟩ := by
  unfold calculate_cluster_confidence clarity_trend_calc
  simp [consistency_score, mean_intra_distance, pre_boost_confidence,
    bind, Except.bind, lt_irrefl]

lemma reinforcement_score_zero : reinforcement_score 0 = 0 := by
  unfold reinforcement_score
  norm_num [Real.logb_one]

/-- The fully evaluated empty-input confidence record. -/
lemma confidence_empty_zero :
    calculate_cluster_confidence [] 0 [] [] = .ok ⟨0, 1, 0, 0⟩ := by
  rw [confidence_empty_eval 0 [], reinforcement_score_zero, round4_zero, round4_one]
  norm_num [round4_zero]

/-! ## Claim C3 -/

/-- C3 (counterexample): the scoring functions do **not** all raise on empty
input — `calculate_cluster_strength` with an empty timestamp list silently
returns 0, and `calculate_cluster_confidence` with empty distance, clarity and
timestamp lists (cluster size 0) silently returns a record with confidence 0,
instead of raising a precondition error. -/
theorem spec_C3_counterexample :
    calculate_cluster_strength 3 0.909 [] 0 = 0 ∧
    calculate_cluster_confidence [] 0 [] [] =
      .ok ⟨0, 1, 0, 0⟩ := by
  exact ⟨strength_empty_timestamps 3 0.909 0, confidence_empty_zero⟩

/-- C3 (amended): only canonical-label selection rejects empty input with a
precondition error (`ValueError`); `calculate_cluster_strength` silently
returns 0 when the timestamp list is empty, and `calculate_cluster_confidence`
silently returns a value (never raising) when the distance and timestamp lists
are empty. -/
theorem spec_C3_amended :
    (∀ (use_llm : Bool) (llm : Option String),
      select_canonical_label [] use_llm llm = .error .valueError) ∧
    (∀ (n : ℕ) (m : ℝ) (T : ℤ), calculate_cluster_strength n m [] T = 0) ∧
    (∀ (n : ℕ) (cs : List ℝ), ∃ res,
      calculate_cluster_confidence [] n cs [] = .ok res) := by
  refine ⟨fun _ _ => rfl, fun n m T => strength_empty_timestamps n m T, ?_⟩
  intro n cs
  exact ⟨_, confidence_empty_eval n cs⟩

/-! ## Claim C7 -/

/-- C7: the cluster strength factors through `strength_with_recency`, and —
holding the mean adjusted weight `m ≥ 0` and the recency factor `ρ ≥ 0`
fixed — it is monotonically non-decreasing in the cluster size. -/
theorem spec_C7_strength_monotone :
    (∀ (n : ℕ) (m : ℝ) (ts : List ℤ) (T : ℤ),
      calculate_cluster_strength n m ts T =
        strength_with_recency n m (calculate_recency_factor ts T)) ∧
    (∀ (n n' : ℕ) (m ρ : ℝ), 1 ≤ n → n ≤ n' → 0 ≤ m → 0 ≤ ρ →
      strength_with_recency n m ρ ≤ strength_with_recency n' m ρ) := by
  constructor
  · intro n m ts T
    rfl
  · intro n n' m ρ _ hnn hm hρ
    unfold strength_with_recency
    have hlog : Real.log ((n : ℝ) + 1) ≤ Real.log ((n' : ℝ) + 1) := by
      apply Real.log_le_log (by positivity)
      have : (n : ℝ) ≤ (n' : ℝ) := by exact_mod_cast hnn
      linarith
    have hlog0 : 0 ≤ Real.log ((n : ℝ) + 1) := Real.log_nonneg (by
      have : (0 : ℝ) ≤ (n : ℝ) := by positivity
      linarith)
    have hraw : Real.log ((n : ℝ) + 1) * m * ρ ≤ Real.log ((n' : ℝ) + 1) * m * ρ := by
      apply mul_le_mul_of_nonneg_right _ hρ
      exact mul_le_mul_of_nonneg_right hlog hm
    have hraw0 : 0 ≤ Real.log ((n : ℝ) + 1) * m * ρ := by positivity
    exact round4_mono (div_one_add_mono hraw0 hraw)

/-- Witness for C7 at `n = 1 ≤ n' = 2`, `m = 1`, `ρ = 1` (and the
factorisation at a concrete input). -/
theorem spec_C7_witness :
    (calculate_cluster_strength 1 1 [0] 0 =
      strength_with_recency 1 1 (calculate_recency_factor [0] 0)) ∧
    ((1 : ℕ) ≤ 1 ∧ (1 : ℕ) ≤ 2 ∧ (0 : ℝ) ≤ 1 ∧ (0 : ℝ) ≤ 1) ∧
    strength_with_recency 1 1 1 ≤ strength_with_recency 2 1 1 :=
  ⟨spec_C7_strength_monotone.1 1 1 [0] 0,
   ⟨le_refl 1, by norm_num, by norm_num, by norm_num⟩,
   spec_C7_strength_monotone.2 1 2 1 1 (le_refl 1) (by norm_num)
     (by norm_num) (by norm_num)⟩

/-! ## Claim C8 -/

lemma mean_intra_one : mean_intra_distance [1] = 1 := by
  simp [mean_intra_distance]

/-- C8: the pre-boost confidence is exactly
`consistency × reinforcement` (with `consistency = 1/(1 + mean distance)` and
`reinforcement = min(1, log10(n+1))`), and for a non-empty cluster with
consistency < 1 it is strictly below the reinforcement score alone. -/
theorem spec_C8_preboost_lt_reinforcement :
    (∀ (d : List ℝ) (n : ℕ),
      pre_boost_confidence d n = consistency_score d * reinforcement_score n ∧
      consistency_score d = 1 / (1 + mean_intra_distance d) ∧
      reinforcement_score n = min 1 (Real.logb 10 ((n : ℝ) + 1))) ∧
    (∀ (d : List ℝ) (n : ℕ), 1 ≤ n → consistency_score d < 1 →
      pre_boost_confidence d n < reinforcement_score n) := by
  constructor
  · intro d n
    exact ⟨rfl, rfl, rfl⟩
  · intro d n hn hcons
    have hlogb : 0 < Real.logb 10 ((n : ℝ) + 1) := by
      apply Real.logb_pos (by norm_num)
      have : (1 : ℝ) ≤ (n : ℝ) := by exact_mod_cast hn
      linarith
    have hreinf : 0 < reinforcement_score n := lt_min one_pos hlogb
    calc pre_boost_confidence d n
        = consistency_score d * reinforcement_score n := rfl
      _ < reinforcement_score n := mul_lt_of_lt_one_left hreinf hcons

/-- Witness for C8 at `d = [1]` (mean distance 1, consistency 1/2) and
`n = 1`. -/
theorem spec_C8_witness :
    ((1 : ℕ) ≤ 1 ∧ consistency_score [1] < 1) ∧
    pre_boost_confidence [1] 1 < reinforcement_score 1 := by
  have hcons : consistency_score [1] < 1 := by
    unfold consistency_score
    rw [mean_intra_one]
    norm_num
  exact ⟨⟨le_refl 1, hcons⟩,
    spec_C8_preboost_lt_reinforcement.2 [1] 1 (le_refl 1) hcons⟩

/-! ## Claim C10 -/

lemma recency_single_now : calculate_recency_factor [0] 0 = 1 := by
  simp [calculate_recency_factor, Real.exp_zero]

/-- C10: the returned cluster strength and cluster confidence are multiples of
`10⁻⁴`, and the tier is assigned from the *rounded* strength: at a
pre-rounding normalized strength of exactly 0.79996 (strictly below the 0.8
threshold) the returned strength is 0.8 and the tier is PRIMARY. -/
theorem spec_C10_rounding :
    (∀ (n : ℕ) (m : ℝ) (ts : List ℤ) (T : ℤ), ∃ k : ℤ,
      calculate_cluster_strength n m ts T = (k : ℝ) / 10000) ∧
    (∀ (d : List ℝ) (n : ℕ) (cs : List ℝ) (ts : List ℤ)
        (res : ConfidenceMetrics),
      calculate_cluster_confidence d n cs ts = .ok res →
      ∃ k : ℤ, res.confidence = (k : ℝ) / 10000) ∧
    (let m0 : ℝ := 0.79996 / (0.20004 * Real.log 2)
     normalized_strength 1 m0 [0] 0 = 0.79996 ∧
     normalized_strength 1 m0 [0] 0 < 0.8 ∧
     calculate_cluster_strength 1 m0 [0] 0 = 0.8 ∧
     assign_tier_by_strength (calculate_cluster_strength 1 m0 [0] 0) =
       TierEnum.PRIMARY) := by
  refine ⟨?_, ?_, ?_⟩
  · intro n m ts T
    exact ⟨_, rfl⟩
  · intro d n cs ts res h
    unfold calculate_cluster_confidence at h
    cases hct : clarity_trend_calc ts cs with
    | error e =>
      rw [hct] at h
      simp [bind, Except.bind] at h
    | ok t =>
      rw [hct] at h
      simp only [bind, Except.bind, Except.ok.injEq] at h
      subst h
      exact ⟨_, rfl⟩
  · intro m0
    have hlog2 : (0 : ℝ) < Real.log 2 := Real.log_pos (by norm_num)
    have hnorm : normalized_strength 1 m0 [0] 0 = 0.79996 := by
      unfold normalized_strength
      rw [recency_single_now]
      have h1 : Real.log ((1 : ℕ) + 1) = Real.log 2 := by norm_num
      rw [h1]
      have h2 : Real.log 2 * m0 * 1 = 0.79996 / 0.20004 := by
        show Real.log 2 * (0.79996 / (0.20004 * Real.log 2)) * 1 = 0.79996 / 0.20004
        field_simp
        ring
      show (Real.log 2 * m0 * 1) / (1 + Real.log 2 * m0 * 1) = 0.79996
      rw [h2]
      norm_num
    have hstrength : calculate_cluster_strength 1 m0 [0] 0 = 0.8 := by
      unfold calculate_cluster_strength
      rw [hnorm]
      have h := round4_eq_of_bounds (x := 0.79996) 8000 (by norm_num) (by norm_num)
      rw [h]
      norm_num
    exact ⟨hnorm, by rw [hnorm]; norm_num, hstrength,
      by rw [hstrength]; exact assign_tier_primary (le_refl 0.8)⟩

/-- Witness for C10's confidence conjunct, at the empty-input evaluation. -/
theorem spec_C10_witness :
    (calculate_cluster_confidence [] 0 [] [] = .ok ⟨0, 1, 0, 0⟩) ∧
    ∃ k : ℤ, (ConfidenceMetrics.mk 0 1 0 0).confidence = (k : ℝ) / 10000 :=
  ⟨confidence_empty_zero,
   spec_C10_rounding.2.1 [] 0 [] [] ⟨0, 1, 0, 0⟩ confidence_empty_zero⟩

/-! ## Claim C6 -/

lemma mean_intra_nonneg {d : List ℝ} (hd : ∀ x ∈ d, 0 ≤ x) :
    0 ≤ mean_intra_distance d := by
  unfold mean_intra_distance
  split
  · exact le_refl 0
  · exact div_nonneg (List.sum_nonneg hd) (by positivity)

/-- C6 (counterexample): on a valid input — quality scores 1 ∈ (0,1],
non-empty member list, timestamp equal to the reference time — the *returned*
(rounded) cluster strength reaches exactly 1, which is outside the claimed
range [0,1).  (The cluster size is astronomically large; the pre-rounding
value is still < 1, but rounding to 4 decimals carries it to 1.) -/
theorem spec_C6_counterexample :
    calculate_cluster_strength (2 ^ 30000 - 1) (observation_abw 1 1 1 0.01)
      [0] 0 = 1 := by
  have ha : observation_abw 1 1 1 0.01 = 1.01 := by
    rw [observation_abw_of_equal (by norm_num) 0.01]
    norm_num
  have hcast : (((2 ^ 30000 - 1 : ℕ) : ℝ)) + 1 = (2 : ℝ) ^ (30000 : ℕ) := by
    have h1 : (1 : ℕ) ≤ 2 ^ 30000 := Nat.one_le_two_pow
    push_cast [h1]
    ring
  have hlog : Real.log (((2 ^ 30000 - 1 : ℕ) : ℝ) + 1) = 30000 * Real.log 2 := by
    rw [hcast, Real.log_pow]
    norm_num
  have hlog2 := Real.log_two_gt_d9
  set raw := Real.log (((2 ^ 30000 - 1 : ℕ) : ℝ) + 1) *
    observation_abw 1 1 1 0.01 * calculate_recency_factor [0] 0 with hraw_def
  have hraw : raw = 30000 * Real.log 2 * 1.01 := by
    rw [hraw_def, hlog, ha, recency_single_now, mul_one]
  have hraw_ge : (19999 : ℝ) ≤ raw := by rw [hraw]; nlinarith
  have hx_ge : (0.99995 : ℝ) ≤ raw / (1 + raw) := by
    calc (0.99995 : ℝ) = 19999 / (1 + 19999) := by norm_num
      _ ≤ raw / (1 + raw) := div_one_add_mono (by norm_num) hraw_ge
  have hx_lt : raw / (1 + raw) < 1 := div_one_add_lt_one (by linarith)
  unfold calculate_cluster_strength normalized_strength
  show round4 (raw / (1 + raw)) = 1
  have h := round4_eq_of_bounds (x := raw / (1 + raw)) 10000
    (by push_cast; nlinarith) (by push_cast; nlinarith)
  rw [h]
  norm_num

/-- C6 (amended): for valid inputs the observation weight is in (0,1] and the
cluster confidence is in [0,1], as claimed; the *pre-rounding* cluster
strength is in [0,1), but the returned strength — rounded to 4 decimals — is
only guaranteed to lie in [0,1] (and can equal 1, see the counterexample). -/
theorem spec_C6_amended :
    (∀ c l f : ℝ, 0 < c → c ≤ 1 → 0 < l → l ≤ 1 → 0 < f → f ≤ 1 →
      0 < calculate_behavior_weight c l f ∧ calculate_behavior_weight c l f ≤ 1) ∧
    (∀ (n : ℕ) (m : ℝ) (ts : List ℤ) (T : ℤ), 0 ≤ m → (∀ t ∈ ts, t ≤ T) →
      (0 ≤ normalized_strength n m ts T ∧ normalized_strength n m ts T < 1) ∧
      (0 ≤ calculate_cluster_strength n m ts T ∧
        calculate_cluster_strength n m ts T ≤ 1)) ∧
    (∀ (d : List ℝ) (n : ℕ) (cs : List ℝ) (ts : List ℤ)
        (res : ConfidenceMetrics), (∀ x ∈ d, 0 ≤ x) →
      calculate_cluster_confidence d n cs ts = .ok res →
      0 ≤ res.confidence ∧ res.confidence ≤ 1) := by
  refine ⟨?_, ?_, ?_⟩
  · intro c l f hc hc1 hl hl1 hf hf1
    have h1 : 0 < c ^ alpha := Real.rpow_pos_of_pos hc _
    have h2 : 0 < l ^ beta := Real.rpow_pos_of_pos hl _
    have h3 : 0 < f ^ gamma := Real.rpow_pos_of_pos hf _
    have h4 : c ^ alpha ≤ 1 := Real.rpow_le_one hc.le hc1 (by norm_num [alpha])
    have h5 : l ^ beta ≤ 1 := Real.rpow_le_one hl.le hl1 (by norm_num [beta])
    have h6 : f ^ gamma ≤ 1 := Real.rpow_le_one hf.le hf1 (by norm_num [gamma])
    unfold calculate_behavior_weight
    constructor
    · positivity
    · have h7 : c ^ alpha * l ^ beta ≤ 1 := by
        have := mul_le_mul h4 h5 h2.le (by norm_num : (0 : ℝ) ≤ 1)
        linarith
      have h8 := mul_le_mul h7 h6 h3.le (by norm_num : (0 : ℝ) ≤ 1)
      linarith
  · intro n m ts T hm _
    have hn0 := normalized_strength_nonneg n hm ts T
    have hn1 := normalized_strength_lt_one n hm ts T
    exact ⟨⟨hn0, hn1⟩, round4_nonneg hn0, round4_le_one hn1.le⟩
  · intro d n cs ts res hd h
    have hmean := mean_intra_nonneg hd
    have hcons1 : consistency_score d ≤ 1 := by
      unfold consistency_score
      rw [div_le_one (by linarith)]
      linarith
    have hcons0 : 0 ≤ consistency_score d := by
      unfold consistency_score
      positivity
    have hlogb : 0 ≤ Real.logb 10 ((n : ℝ) + 1) := by
      apply Real.logb_nonneg (by norm_num)
      have : (0 : ℝ) ≤ (n : ℝ) := by positivity
      linarith
    have hre0 : 0 ≤ reinforcement_score n := le_min (by norm_num) hlogb
    have hre1 : reinforcement_score n ≤ 1 := min_le_left _ _
    unfold calculate_cluster_confidence at h
    cases hct : clarity_trend_calc ts cs with
    | error e =>
      rw [hct] at h
      simp [bind, Except.bind] at h
    | ok t =>
      rw [hct] at h
      simp only [bind, Except.bind, Except.ok.injEq] at h
      subst h
      simp only
      have hpre0 : 0 ≤ pre_boost_confidence d n := mul_nonneg hcons0 hre0
      have hboost0 : 0 ≤ (if 0 < t then
          pre_boost_confidence d n * (1 + t * 0.1) else pre_boost_confidence d n) := by
        split
        · rename_i ht
          have : 0 ≤ 1 + t * 0.1 := by linarith
          exact mul_nonneg hpre0 this
        · exact hpre0
      have hmin0 : 0 ≤ min 1 (if 0 < t then
          pre_boost_confidence d n * (1 + t * 0.1) else pre_boost_confidence d n) :=
        le_min (by norm_num) hboost0
      have hmin1 : min 1 (if 0 < t then
          pre_boost_confidence d n * (1 + t * 0.1) else pre_boost_confidence d n) ≤ 1 :=
        min_le_left _ _
      exact ⟨round4_nonneg hmin0, round4_le_one hmin1⟩

/-- Witness for C6 (amended): weight at (1,1,1), strength at a singleton
cluster with `m = 0` and timestamp 0 = reference time, confidence at the
empty-input evaluation. -/
theorem spec_C6_witness :
    (((0 : ℝ) < 1 ∧ (1 : ℝ) ≤ 1) ∧
      0 < calculate_behavior_weight 1 1 1 ∧ calculate_behavior_weight 1 1 1 ≤ 1) ∧
    (((0 : ℝ) ≤ 0 ∧ ∀ t ∈ [(0 : ℤ)], t ≤ (0 : ℤ)) ∧
      0 ≤ calculate_cluster_strength 1 0 [0] 0 ∧
      calculate_cluster_strength 1 0 [0] 0 ≤ 1) ∧
    ((calculate_cluster_confidence [] 0 [] [] = .ok ⟨0, 1, 0, 0⟩) ∧
      0 ≤ (ConfidenceMetrics.mk 0 1 0 0).confidence ∧
      (ConfidenceMetrics.mk 0 1 0 0).confidence ≤ 1) :=
  ⟨⟨⟨by norm_num, le_refl 1⟩,
    spec_C6_amended.1 1 1 1 (by norm_num) (le_refl 1) (by norm_num) (le_refl 1)
      (by norm_num) (le_refl 1)⟩,
   ⟨⟨le_refl 0, by intro t ht; simp at ht; omega⟩,
    (spec_C6_amended.2.1 1 0 [0] 0 (le_refl 0)
      (by intro t ht; simp at ht; omega)).2⟩,
   ⟨confidence_empty_zero,
    spec_C6_amended.2.2 [] 0 [] [] ⟨0, 1, 0, 0⟩ (by simp) confidence_empty_zero⟩⟩

/-! ## Clustering-engine evaluation lemmas -/

lemma fit_two_spec : HdbscanSpec fit_two := by
  intro X
  unfold fit_two
  by_cases h : X.length = 2
  · rw [if_pos h]
    refine ⟨by simp [h], ?_⟩
    intro l hl hlne
    simp at hl
    subst hl
    simp [min_cluster_size]
  · rw [if_neg h]
    refine ⟨List.length_replicate _ _, ?_⟩
    intro l hl hlne
    exact absurd (List.eq_of_mem_replicate hl) hlne

lemma cluster_behaviors_two :
    cluster_behaviors fit_two [[1], [1]] ["a", "b"] = .ok result_two := by
  unfold cluster_behaviors fit_two result_two
  norm_num [min_cluster_size, make_clusters, make_noise, first_dedup]

lemma cluster_behaviors_single (fit : List (List ℝ) → List ℤ) :
    cluster_behaviors fit [[1]] ["a"] = .ok result_single := by
  unfold cluster_behaviors result_single
  norm_num [min_cluster_size, List.replicate]

/-- Whatever the input, a successful clustering run's result carries none of
the three keys the pipeline will look up. -/
lemma cluster_behaviors_no_keys {fit : List (List ℝ) → List ℤ}
    {emb : List (List ℝ)} {ids : List String} {r : ClusteringResult}
    (h : cluster_behaviors fit emb ids = .ok r) :
    r.cluster_centroids = none ∧ r.intra_cluster_distances = none ∧
    r.cluster_embeddings = none := by
  unfold cluster_behaviors at h
  split at h
  · simp at h
  · split at h
    · simp only [Except.ok.injEq] at h
      subst h
      exact ⟨rfl, rfl, rfl⟩
    · simp only [Except.ok.injEq] at h
      subst h
      exact ⟨rfl, rfl, rfl⟩

/-- `_build_behavior_clusters` raises `KeyError` whenever the clustering
result lacks the `cluster_centroids` key. -/
lemma build_missing_centroids {r : ClusteringResult}
    (h : r.cluster_centroids = none)
    (observations : List BehaviorObservation) (uid : String) (T : ℤ)
    (llm : Option String) (gn : List String → ℕ → String → String) :
    build_behavior_clusters r observations uid T llm gn = .error .keyError := by
  unfold build_behavior_clusters
  rw [h]
  rfl

/-! ## Claim C2 -/

/-- C2 (code bug evidence): the clustering engine's result never reports
centroids or intra-cluster distances — every successful `cluster_behaviors`
result lacks the `cluster_centroids` and `intra_cluster_distances` keys — and
consequently the pipeline's `_build_behavior_clusters`, which reads those keys,
raises `KeyError` instead of feeding per-cluster distances into the confidence
calculation.  Demonstrated concretely on a run that forms one cluster of two
points. -/
theorem spec_C2_engine_reports_no_centroids :
    (cluster_behaviors fit_two [[1], [1]] ["a", "b"] = .ok result_two) ∧
    result_two.cluster_centroids = none ∧
    result_two.intra_cluster_distances = none ∧
    result_two.num_clusters = 1 ∧
    build_behavior_clusters result_two [obs_of "a", obs_of "b"] "u" 0 none
      gen_name_stub = .error .keyError :=
  ⟨cluster_behaviors_two, rfl, rfl, rfl,
    build_missing_centroids rfl [obs_of "a", obs_of "b"] "u" 0 none gen_name_stub⟩

/-! ## Claim C4 -/

/-- C4 (code bug evidence): with a single input point (fewer than
`min_cluster_size = 2`) the clustering operation does not error — it attempts
no clustering, labels the point as noise and reports zero clusters, exactly as
claimed — but the pipeline then raises `KeyError` in
`_build_behavior_clusters` (the degenerate result also lacks the
`cluster_centroids` key), so no Profile with empty cluster list is ever
assembled. -/
theorem spec_C4_degenerate_keyerror :
    (cluster_behaviors fit_two [[1]] ["a"] = .ok result_single) ∧
    result_single.clusters = [] ∧
    result_single.labels = [-1] ∧
    result_single.noise_behaviors = ["a"] ∧
    result_single.num_clusters = 0 ∧
    analyze_observations_core embed_one fit_two none gen_name_stub gen_arch_stub
      "u" [obs_of "a"] [] false 0 = .error .keyError := by
  refine ⟨cluster_behaviors_single fit_two, rfl, rfl, rfl, rfl, ?_⟩
  have h2 := build_missing_centroids (r := result_single) rfl [obs_of "a"] "u" 0
    none gen_name_stub
  simp only [obs_of] at h2
  simp only [analyze_observations_core, embed_one, obs_of, List.map_cons,
    List.map_nil, cluster_behaviors_single fit_two, bind, Except.bind, h2]

/-! ## Lemmas for claim C5 -/

lemma except_bind_ok {α β : Type} {e : Except PyErr α} {f : α → Except PyErr β}
    {v : β} (h : e >>= f = .ok v) : ∃ w, e = .ok w ∧ f w = .ok v := by
  cases e with
  | error err => simp [bind, Except.bind] at h
  | ok w => exact ⟨w, rfl, by simpa [bind, Except.bind] using h⟩

lemma first_dedup_mem {α : Type} [DecidableEq α] {a : α} {l : List α} :
    a ∈ first_dedup l ↔ a ∈ l := by
  induction l with
  | nil => simp [first_dedup]
  | cons x xs ih =>
    by_cases hax : a = x
    · simp [first_dedup, hax]
    · simp [first_dedup, List.mem_filter, hax, ih]

lemma filter_zip_snd_length {ids : List String} {ls : List ℤ}
    (h : ids.length = ls.length) (l : ℤ) :
    ((ids.zip ls).filter fun p => p.2 = l).length =
      (ls.filter fun x => x = l).length := by
  induction ids generalizing ls with
  | nil =>
    cases ls with
    | nil => rfl
    | cons b bs => simp at h
  | cons a as ih =>
    cases ls with
    | nil => simp at h
    | cons b bs =>
      have h' : as.length = bs.length := by simpa using h
      simp only [List.zip_cons_cons, List.filter_cons]
      by_cases hb : b = l
      · simp [hb, ih h']
      · simp [hb, ih h']

lemma zip_nodup_snd_eq {ids : List String} {ls : List ℤ} (h : ids.Nodup)
    {a : String} {b c : ℤ} (hb : (a, b) ∈ ids.zip ls)
    (hc : (a, c) ∈ ids.zip ls) : b = c := by
  obtain ⟨i, hi, hbi⟩ := List.getElem_of_mem hb
  obtain ⟨j, hj, hcj⟩ := List.getElem_of_mem hc
  have hi1 : i < ids.length := lt_of_lt_of_le hi (by
    rw [List.length_zip]; exact min_le_left _ _)
  have hi2 : i < ls.length := lt_of_lt_of_le hi (by
    rw [List.length_zip]; exact min_le_right _ _)
  have hj1 : j < ids.length := lt_of_lt_of_le hj (by
    rw [List.length_zip]; exact min_le_left _ _)
  have hj2 : j < ls.length := lt_of_lt_of_le hj (by
    rw [List.length_zip]; exact min_le_right _ _)
  rw [List.getElem_zip] at hbi hcj
  have hib : ids[i] = a := congrArg Prod.fst hbi
  have hjb : ids[j] = a := congrArg Prod.fst hcj
  have hfin : (⟨i, hi1⟩ : Fin ids.length) = ⟨j, hj1⟩ :=
    List.nodup_iff_injective_get.mp h (by
      simp only [List.get_eq_getElem]
      rw [hib, hjb])
  have hij : i = j := congrArg Fin.val hfin
  subst hij
  have h1 : ls[i] = b := congrArg Prod.snd hbi
  have h2 : ls[i] = c := congrArg Prod.snd hcj
  rw [← h1, h2]

lemma make_clusters_mem {pairs : List (String × ℤ)} {p : String × List String}
    (hp : p ∈ make_clusters pairs) :
    ∃ l : ℤ, l ≠ -1 ∧ l ∈ pairs.map Prod.snd ∧
      p = (cluster_key l, (pairs.filter fun q => q.2 = l).map Prod.fst) := by
  unfold make_clusters at hp
  obtain ⟨l, hl, rfl⟩ := List.mem_map.mp hp
  have hl' := first_dedup_mem.mp hl
  have hmem := List.mem_filter.mp hl'
  exact ⟨l, by simpa using hmem.2, hmem.1, rfl⟩

lemma mem_cluster_members {pairs : List (String × ℤ)} {l : ℤ} {nid : String}
    (h : nid ∈ (pairs.filter fun q => q.2 = l).map Prod.fst) :
    (nid, l) ∈ pairs := by
  obtain ⟨⟨q1, q2⟩, hq, hfst⟩ := List.mem_map.mp h
  have hmem := List.mem_filter.mp hq
  have h2 : q2 = l := by simpa using hmem.2
  have h1 : q1 = nid := hfst
  rw [← h1, ← h2]
  exact hmem.1

lemma mem_noise {pairs : List (String × ℤ)} {nid : String}
    (h : nid ∈ make_noise pairs) : (nid, -1) ∈ pairs := by
  unfold make_noise at h
  obtain ⟨⟨q1, q2⟩, hq, hfst⟩ := List.mem_map.mp h
  have hmem := List.mem_filter.mp hq
  have h2 : q2 = -1 := by simpa using hmem.2
  have h1 : q1 = nid := hfst
  rw [← h1, ← h2]
  exact hmem.1

/-- A `BehaviorCluster` emitted for the dict entry `(cid, oids)` carries
exactly `oids` as its `observation_ids`. -/
lemma build_one_cluster_ids {intra centroids : List (String × List ℝ)}
    {observations : List BehaviorObservation} {uid : String} {T : ℤ}
    {llm : Option String} {gn : List String → ℕ → String → String}
    {cid : String} {oids : List String} {bc : BehaviorCluster}
    (h : build_one_cluster intra centroids observations uid T llm gn cid oids =
      .ok (some bc)) : bc.observation_ids = oids := by
  unfold build_one_cluster at h
  by_cases hempty : (List.filterMap (obs_lookup observations) oids).isEmpty = true
  · rw [if_pos hempty] at h
    simp at h
  · rw [if_neg hempty] at h
    obtain ⟨d, hd, h⟩ := except_bind_ok h
    obtain ⟨cm, hcm, h⟩ := except_bind_ok h
    obtain ⟨label, hlabel, h⟩ := except_bind_ok h
    obtain ⟨fs, hfs, h⟩ := except_bind_ok h
    obtain ⟨ls, hls, h⟩ := except_bind_ok h
    simp only [Except.ok.injEq, Option.some.injEq] at h
    subst h
    rfl

/-- Every cluster produced by the build loop takes its `observation_ids`
verbatim from one of the dict entries it was given. -/
lemma build_loop_sourcing {intra centroids : List (String × List ℝ)}
    {observations : List BehaviorObservation} {uid : String} {T : ℤ}
    {llm : Option String} {gn : List String → ℕ → String → String} :
    ∀ {entries : List (String × List String)} {bcs : List BehaviorCluster},
    build_loop intra centroids observations uid T llm gn entries = .ok bcs →
    ∀ bc ∈ bcs, ∃ p ∈ entries, bc.observation_ids = p.2 := by
  intro entries
  induction entries with
  | nil =>
    intro bcs h bc hbc
    simp only [build_loop, Except.ok.injEq] at h
    subst h
    simp at hbc
  | cons e rest ih =>
    intro bcs h bc hbc
    obtain ⟨cid, oids⟩ := e
    unfold build_loop at h
    obtain ⟨head, hhead, h⟩ := except_bind_ok h
    obtain ⟨tail, htail, h⟩ := except_bind_ok h
    cases head with
    | none =>
      simp only [Except.ok.injEq] at h
      subst h
      obtain ⟨p, hp, hids⟩ := ih htail bc hbc
      exact ⟨p, List.mem_cons_of_mem _ hp, hids⟩
    | some bc0 =>
      simp only [Except.ok.injEq] at h
      subst h
      cases List.mem_cons.mp hbc with
      | inl heq =>
        subst heq
        exact ⟨(cid, oids), List.mem_cons_self _ _, build_one_cluster_ids hhead⟩
      | inr hmem =>
        obtain ⟨p, hp, hids⟩ := ih htail bc hmem
        exact ⟨p, List.mem_cons_of_mem _ hp, hids⟩

/-- `_build_behavior_clusters` sources every assembled cluster's ids from the
clustering result's `clusters` dict. -/
lemma build_clusters_sourcing {r : ClusteringResult}
    {observations : List BehaviorObservation} {uid : String} {T : ℤ}
    {llm : Option String} {gn : List String → ℕ → String → String}
    {bcs : List BehaviorCluster}
    (h : build_behavior_clusters r observations uid T llm gn = .ok bcs) :
    ∀ bc ∈ bcs, ∃ p ∈ r.clusters, bc.observation_ids = p.2 := by
  unfold build_behavior_clusters at h
  obtain ⟨c, hc, h⟩ := except_bind_ok h
  obtain ⟨d, hd, h⟩ := except_bind_ok h
  obtain ⟨e, he, h⟩ := except_bind_ok h
  exact build_loop_sourcing h

/-! ## Claim C5 -/

/-- C5: for every successful clustering run (with HDBSCAN modelled from the
spec and distinct observation ids), an id assigned to noise appears in no
cluster of the result — noise ids are dropped, not wrapped into singleton
clusters — and every reported cluster has at least `min_cluster_size` members;
moreover, any cluster assembly from a result with these clusters takes its
`observation_ids` only from them, so a noise id never appears in any assembled
`BehaviorCluster`. -/
theorem spec_C5_noise_dropped (fit : List (List ℝ) → List ℤ)
    (hfit : HdbscanSpec fit) (embeddings : List (List ℝ))
    (behavior_ids : List String) (r : ClusteringResult)
    (hnodup : behavior_ids.Nodup)
    (hok : cluster_behaviors fit embeddings behavior_ids = .ok r) :
    (∀ nid ∈ r.noise_behaviors, ∀ p ∈ r.clusters, nid ∉ p.2) ∧
    (∀ p ∈ r.clusters, min_cluster_size ≤ p.2.length) ∧
    (∀ r' : ClusteringResult, r'.clusters = r.clusters →
      ∀ (observations : List BehaviorObservation) (uid : String) (T : ℤ)
        (llm : Option String) (gn : List String → ℕ → String → String)
        (bcs : List BehaviorCluster),
      build_behavior_clusters r' observations uid T llm gn = .ok bcs →
      ∀ bc ∈ bcs, ∀ nid ∈ r.noise_behaviors, nid ∉ bc.observation_ids) := by
  unfold cluster_behaviors at hok
  by_cases h1 : embeddings.length ≠ behavior_ids.length
  · rw [if_pos h1] at hok
    simp at hok
  · rw [if_neg h1] at hok
    by_cases h2 : embeddings.length < min_cluster_size
    · rw [if_pos h2] at hok
      simp only [Except.ok.injEq] at hok
      subst hok
      refine ⟨?_, ?_, ?_⟩
      · intro nid _ p hp
        simp at hp
      · intro p hp
        simp at hp
      · intro r' hr' obs uid T llm gn bcs hb bc hbc nid _ hmem
        obtain ⟨p, hp, hids⟩ := build_clusters_sourcing hb bc hbc
        rw [hr'] at hp
        simp at hp
    · rw [if_neg h2] at hok
      simp only [Except.ok.injEq] at hok
      subst hok
      have hfx := (hfit (embeddings.map l2_normalize)).1
      have hlen : behavior_ids.length =
          (fit (embeddings.map l2_normalize)).length := by
        rw [hfx, List.length_map]
        exact (not_ne_iff.mp h1).symm
      have hA : ∀ nid ∈ make_noise
            (behavior_ids.zip (fit (embeddings.map l2_normalize))),
          ∀ p ∈ make_clusters
            (behavior_ids.zip (fit (embeddings.map l2_normalize))),
          nid ∉ p.2 := by
        intro nid hn p hp hmem
        obtain ⟨l, hlne, _, rfl⟩ := make_clusters_mem hp
        have hpair1 : (nid, l) ∈
            behavior_ids.zip (fit (embeddings.map l2_normalize)) :=
          mem_cluster_members hmem
        have hpair2 : (nid, -1) ∈
            behavior_ids.zip (fit (embeddings.map l2_normalize)) :=
          mem_noise hn
        exact hlne (zip_nodup_snd_eq hnodup hpair1 hpair2)
      refine ⟨hA, ?_, ?_⟩
      · intro p hp
        obtain ⟨l, hlne, hlmem, rfl⟩ := make_clusters_mem hp
        show min_cluster_size ≤
          (((behavior_ids.zip (fit (embeddings.map l2_normalize))).filter
            fun q => q.2 = l).map Prod.fst).length
        rw [List.length_map, filter_zip_snd_length hlen l]
        have hl_in : l ∈ fit (embeddings.map l2_normalize) := by
          obtain ⟨q, hq, rfl⟩ := List.mem_map.mp hlmem
          exact (List.of_mem_zip hq).2
        exact (hfit (embeddings.map l2_normalize)).2 l hl_in hlne
      · intro r' hr' obs uid T llm gn bcs hb bc hbc nid hnid hmem
        obtain ⟨p, hp, hids⟩ := build_clusters_sourcing hb bc hbc
        rw [hr'] at hp
        exact hA nid hnid p hp (hids ▸ hmem)

/-- Witness for C5: the two-point run forming one cluster `["a","b"]` with no
noise; the spec-modelled HDBSCAN stand-in `fit_two` satisfies `HdbscanSpec`;
the ids are distinct. -/
theorem spec_C5_witness :
    HdbscanSpec fit_two ∧ (["a", "b"] : List String).Nodup ∧
    (cluster_behaviors fit_two [[1], [1]] ["a", "b"] = .ok result_two) ∧
    ((∀ nid ∈ result_two.noise_behaviors, ∀ p ∈ result_two.clusters, nid ∉ p.2) ∧
     (∀ p ∈ result_two.clusters, min_cluster_size ≤ p.2.length)) :=
  ⟨fit_two_spec, by simp, cluster_behaviors_two,
    have h := spec_C5_noise_dropped fit_two fit_two_spec [[1], [1]] ["a", "b"]
      result_two (by simp) cluster_behaviors_two
    ⟨h.1, h.2.1⟩⟩

/-! ## Lemmas for claim C9 -/

lemma foldl_max_len (t : String) (xs : List String) :
    (xs.foldl (fun acc s => if acc.length < s.length then s else acc) t = t ∨
     xs.foldl (fun acc s => if acc.length < s.length then s else acc) t ∈ xs) ∧
    t.length ≤ (xs.foldl (fun acc s => if acc.length < s.length then s else acc) t).length ∧
    ∀ s ∈ xs, s.length ≤
      (xs.foldl (fun acc s => if acc.length < s.length then s else acc) t).length := by
  induction xs generalizing t with
  | nil => exact ⟨Or.inl rfl, le_refl _, by simp⟩
  | cons y ys ih =>
    simp only [List.foldl_cons]
    obtain ⟨hmem, hlen, hall⟩ := ih (if t.length < y.length then y else t)
    have ht' : t.length ≤ (if t.length < y.length then y else t).length := by
      split
      · rename_i hlt
        exact hlt.le
      · exact le_refl _
    have hy' : y.length ≤ (if t.length < y.length then y else t).length := by
      split
      · exact le_refl _
      · rename_i hnlt
        omega
    refine ⟨?_, le_trans ht' hlen, ?_⟩
    · cases hmem with
      | inl heq =>
        rw [heq]
        split
        · exact Or.inr (List.mem_cons_self _ _)
        · exact Or.inl rfl
      | inr hin => exact Or.inr (List.mem_cons_of_mem _ hin)
    · intro s hs
      cases List.mem_cons.mp hs with
      | inl heq =>
        rw [heq]
        exact le_trans hy' hlen
      | inr hin => exact hall s hin

lemma max_by_len_spec {l : List String} {t : String}
    (h : max_by_len l = some t) :
    t ∈ l ∧ ∀ s ∈ l, s.length ≤ t.length := by
  cases l with
  | nil => simp [max_by_len] at h
  | cons x xs =>
    simp only [max_by_len, Option.some.injEq] at h
    subst h
    obtain ⟨hmem, hlen, hall⟩ := foldl_max_len x xs
    constructor
    · cases hmem with
      | inl heq => rw [heq]; exact List.mem_cons_self _ _
      | inr hin => exact List.mem_cons_of_mem _ hin
    · intro s hs
      cases List.mem_cons.mp hs with
      | inl heq => rw [heq]; exact hlen
      | inr hin => exact hall s hin

/-- When there are at most 10 distinct texts and the collaborator is
unavailable or answers badly, `generate_concise_label` returns a longest
member text. -/
lemma generate_label_fallback {a b : String} {rest : List String}
    (hd : (first_dedup (a :: b :: rest)).length ≤ 10)
    {llm : Option String}
    (hbad : llm = none ∨ ∃ s, llm = some s ∧ (s = "" ∨ 8 < word_count s)) :
    generate_concise_label (a :: b :: rest) llm ∈ (a :: b :: rest) ∧
    ∀ s ∈ (a :: b :: rest), s.length ≤
      (generate_concise_label (a :: b :: rest) llm).length := by
  have htake : (first_dedup (a :: b :: rest)).take 10 =
      first_dedup (a :: b :: rest) := List.take_of_length_le hd
  have hshape : first_dedup (a :: b :: rest) =
      a :: (first_dedup (b :: rest)).filter fun y => y ≠ a := rfl
  have hmax : ∃ t, max_by_len (first_dedup (a :: b :: rest)) = some t := by
    rw [hshape]
    exact ⟨_, rfl⟩
  obtain ⟨t, ht⟩ := hmax
  obtain ⟨htmem, htall⟩ := max_by_len_spec ht
  have htex : t ∈ (a :: b :: rest) := first_dedup_mem.mp htmem
  have htlen : ∀ s ∈ (a :: b :: rest), s.length ≤ t.length := fun s hs =>
    htall s (first_dedup_mem.mpr hs)
  have hval : generate_concise_label (a :: b :: rest) llm = t := by
    cases hbad with
    | inl hnone =>
      subst hnone
      show (max_by_len ((first_dedup (a :: b :: rest)).take 10)).getD
        "Unknown Behavior" = t
      rw [htake, ht]
      rfl
    | inr hsome =>
      obtain ⟨s, hs, hcond⟩ := hsome
      subst hs
      show (if s = "" ∨ 8 < word_count s then
        (max_by_len ((first_dedup (a :: b :: rest)).take 10)).getD
          "Unknown Behavior" else s) = t
      rw [if_pos hcond, htake, ht]
      rfl
  rw [hval]
  exact ⟨htex, htlen⟩

/-! ## Claim C9 -/

/-- C9 (counterexample): with 11 distinct member texts and the collaborator
unavailable, the fallback takes the longest of only the first 10
deduplicated texts — `list(set(texts))[:10]` caps at 10 — so the longest
member text (here the 11th, `"longtext"`) is *not* returned: the label is
`"t0"`, which is strictly shorter than the member `"longtext"`. -/
theorem spec_C9_counterexample :
    select_canonical_label
      (["t0", "t1", "t2", "t3", "t4", "t5", "t6", "t7", "t8", "t9",
        "longtext"].map obs_of) true none = .ok "t0" ∧
    "longtext" ∈ (["t0", "t1", "t2", "t3", "t4", "t5", "t6", "t7", "t8", "t9",
        "longtext"].map obs_of).map (fun b => b.behavior_text) ∧
    ("t0" : String).length < ("longtext" : String).length := by
  refine ⟨?_, by simp [obs_of], by decide⟩
  rfl

/-- C9 (amended): a single-member cluster's label is that member's text
verbatim, independent of the collaborator (no call is made — the code returns
before the collaborator is consulted); for a cluster of 2 or more members with
at most 10 distinct texts, when the collaborator is unavailable (`none`) or
returns an empty or over-long (> 8 words) result, label selection returns a
longest member text.  (With more than 10 distinct texts the fallback is the
longest among an unspecified 10 of them, see the counterexample.) -/
theorem spec_C9_label_fallback :
    (∀ (o : BehaviorObservation) (llm : Option String),
      select_canonical_label [o] true llm = .ok o.behavior_text) ∧
    (∀ (observations : List BehaviorObservation) (llm : Option String),
      2 ≤ observations.length →
      (first_dedup (observations.map fun b => b.behavior_text)).length ≤ 10 →
      (llm = none ∨ ∃ s, llm = some s ∧ (s = "" ∨ 8 < word_count s)) →
      ∃ t, select_canonical_label observations true llm = .ok t ∧
        t ∈ observations.map (fun b => b.behavior_text) ∧
        ∀ s ∈ observations.map (fun b => b.behavior_text),
          s.length ≤ t.length) := by
  constructor
  · intro o llm
    rfl
  · intro observations llm hlen hd hbad
    match observations, hlen with
    | o1 :: o2 :: rest, _ =>
      have h := @generate_label_fallback o1.behavior_text o2.behavior_text
        (rest.map fun b => b.behavior_text) (by simpa using hd) llm hbad
      refine ⟨_, rfl, ?_, ?_⟩
      · simpa using h.1
      · simpa using h.2

/-- Witness for C9 (amended): the single-member case at a concrete
observation, and the fallback case at two members `"a"`, `"bb"` with the
collaborator unavailable. -/
theorem spec_C9_witness :
    (select_canonical_label [obs_of "a"] true (some "ignored") =
      .ok (obs_of "a").behavior_text) ∧
    (2 ≤ ([obs_of "a", obs_of "bb"]).length ∧
     (first_dedup (([obs_of "a", obs_of "bb"]).map fun b =>
        b.behavior_text)).length ≤ 10) ∧
    (∃ t, select_canonical_label [obs_of "a", obs_of "bb"] true none = .ok t ∧
      t ∈ ([obs_of "a", obs_of "bb"]).map (fun b => b.behavior_text) ∧
      ∀ s ∈ ([obs_of "a", obs_of "bb"]).map (fun b => b.behavior_text),
        s.length ≤ t.length) :=
  ⟨spec_C9_label_fallback.1 (obs_of "a") (some "ignored"),
   ⟨by norm_num, by decide⟩,
   spec_C9_label_fallback.2 [obs_of "a", obs_of "bb"] none (by norm_num)
     (by decide) (Or.inl rfl)⟩

end CBAC
